import Mathlib

/-!
Verification of the osufile parsing/serialization core.

Strings are modelled as `List Char` (`Str`).  Python `float` values are
modelled as exact rationals (`ℚ`): decimal text denotes an exact rational,
`str` of a float renders its exact decimal value.  This is faithful except
for IEEE-754 double rounding artifacts, which no property here depends on.
Python `int`/`str`/list operations are modelled directly.
-/

namespace Osufile

abbrev Str := List Char

/-- Python `str.isspace` characters relevant to `str.strip()`. -/
def isPyWhite (c : Char) : Bool :=
  c = ' ' || c = '\t' || c = '\n' || c = '\x0b' || c = '\x0c' || c = '\r'

/-- Remove characters satisfying `p` from both ends (Python `str.strip(chars)`). -/
def stripWhile (p : Char → Bool) (s : Str) : Str :=
  ((s.dropWhile p).reverse.dropWhile p).reverse

/-- Python `str.strip()` (no argument: whitespace). -/
def pystrip (s : Str) : Str := stripWhile isPyWhite s

/-- Python `str.strip('"')`: removes ALL leading and trailing double quotes. -/
def pystripQuotes (s : Str) : Str := stripWhile (· = '"') s

/-- Python `str.split(sep)` for a one-character separator.
`pysplit sep s` is never empty; `pysplit sep [] = [[]]`. -/
def pysplit (sep : Char) : Str → List Str
  | [] => [[]]
  | c :: rest =>
    let r := pysplit sep rest
    if c = sep then [] :: r
    else
      match r with
      | h :: t => (c :: h) :: t
      | [] => [[c]]

/-- Python `sep.join(pieces)` for a one-character separator. -/
def pyjoin (sep : Char) : List Str → Str
  | [] => []
  | [x] => x
  | x :: xs => x ++ sep :: pyjoin sep xs

/-- Python `str.partition(sep)` for a one-character separator:
`(before, found, after)` splitting on the first occurrence.
When `sep` is absent the result is `(s, false, [])`, mirroring Python's
`(s, '', '')`. -/
def pypartition (sep : Char) : Str → Str × Bool × Str
  | [] => ([], false, [])
  | c :: rest =>
    if c = sep then ([], true, rest)
    else
      let (a, f, b) := pypartition sep rest
      (c :: a, f, b)

/-- Python `str.startswith(p)`. -/
def pystartswith (p : Str) (s : Str) : Bool := s.take p.length == p

-- ---------------------------------------------------------------------------
-- Numbers: Python int()/float()/round()/str() on our exact-rational floats.
-- ---------------------------------------------------------------------------

def digitVal (c : Char) : ℕ := c.toNat - '0'.toNat

def digitsToNat (s : Str) : ℕ := s.foldl (fun a c => 10 * a + digitVal c) 0

/-- Leading optional sign of a numeric literal. -/
def readSign : Str → ℤ × Str
  | '+' :: r => (1, r)
  | '-' :: r => (-1, r)
  | s => (1, s)

/-- Python `int(text)` on a string: optional surrounding whitespace, optional
sign, one or more decimal digits.  (Underscore digit grouping and other
bases are not modelled; nothing in the repository feeds them in.) -/
def pyInt (s0 : Str) : Option ℤ :=
  let s := pystrip s0
  let (sg, s1) := readSign s
  let (ds, rest) := s1.span (·.isDigit)
  if ds = [] ∨ rest ≠ [] then none
  else some (sg * (digitsToNat ds : ℤ))

/-- Python `float(text)`: optional whitespace and sign, then
`digits [. digits] [e[sign]digits]` with at least one mantissa digit,
valued exactly as a rational.  (`inf`/`nan` and underscore grouping are not
modelled; nothing in the repository feeds them in.) -/
def pyFloat (s0 : Str) : Option ℚ :=
  let s := pystrip s0
  let (sg, s1) := readSign s
  let (ip, s2) := s1.span (·.isDigit)
  let fps3 : Str × Str :=
    match s2 with
    | '.' :: r => r.span (·.isDigit)
    | _ => ([], s2)
  let fp := fps3.1
  let s3 := fps3.2
  if ip = [] ∧ fp = [] then none
  else
    let mant : ℚ := ((sg * (digitsToNat (ip ++ fp) : ℤ) : ℤ) : ℚ) / ((10 : ℚ) ^ fp.length)
    match s3 with
    | [] => some mant
    | c :: r =>
      if c = 'e' ∨ c = 'E' then
        let (esg, r1) := readSign r
        let (ed, r2) := r1.span (·.isDigit)
        if ed = [] ∨ r2 ≠ [] then none
        else some (mant * (10 : ℚ) ^ (esg * (digitsToNat ed : ℤ)))
      else none

/-- Python 3 `round(x)` on a float: nearest integer, ties to even. -/
def roundHalfEven (q : ℚ) : ℤ :=
  if q - (⌊q⌋ : ℚ) < 1 / 2 then ⌊q⌋
  else if (1 : ℚ) / 2 < q - (⌊q⌋ : ℚ) then ⌊q⌋ + 1
  else if Even ⌊q⌋ then ⌊q⌋ else ⌊q⌋ + 1

/-- Decimal digit string of a natural number (Python `str` on a nonnegative int). -/
def renderNat (n : ℕ) : Str :=
  if h : n < 10 then [Char.ofNat (n + '0'.toNat)]
  else renderNat (n / 10) ++ [Char.ofNat (n % 10 + '0'.toNat)]
  decreasing_by exact Nat.div_lt_self (by omega) (by omega)

/-- Python `str(i)` for an int. -/
def renderInt (i : ℤ) : Str :=
  if i < 0 then '-' :: renderNat i.natAbs else renderNat i.toNat

/-- Multiplicity of `p` in `n` (0 when `p < 2` or `n = 0`). -/
def factorCount (p : ℕ) : ℕ → ℕ
  | n =>
    if h : 2 ≤ p ∧ n ≠ 0 ∧ p ∣ n then 1 + factorCount p (n / p)
    else 0
  decreasing_by exact Nat.div_lt_self (Nat.pos_of_ne_zero h.2.1) (by omega)

/-- Smallest decimal exponent `e` with `d ∣ 10 ^ e`, for `d` a 10-smooth
denominator. -/
def decExp (d : ℕ) : ℕ := max (factorCount 2 d) (factorCount 5 d)

/-- Python `str(x)` for a float, rendering the exact decimal value with at
least one fractional digit (e.g. `0 ↦ "0.0"`, `-3/4 ↦ "-0.75"`).  Exact for
every rational whose denominator divides a power of ten, which covers every
value `pyFloat` produces. -/
def renderFloat (q : ℚ) : Str :=
  let e := max (decExp q.den) 1
  let m := q.num.natAbs * (10 ^ e / q.den)
  let ds0 := renderNat m
  let ds := List.replicate (e + 1 - ds0.length) '0' ++ ds0
  (if q.num < 0 then ['-'] else []) ++ ds.take (ds.length - e) ++ '.' :: ds.drop (ds.length - e)

-- ---------------------------------------------------------------------------
-- Data model (datatypes.py)
-- ---------------------------------------------------------------------------

structure HitSample where
  normal_set : ℤ
  addition_set : ℤ
  index : ℤ
  volume : ℤ
  filename : Str
deriving DecidableEq, Repr

structure TimingPoint where
  time : ℤ
  tick : ℚ
  meter : ℤ
  sampleset : ℤ
  sampleindex : ℤ
  volume : ℤ
  uninherited : Bool
  effects : ℤ
deriving DecidableEq, Repr

/-- Python runtime values flowing through the dynamically-typed codecs.
Python tuples and lists are both `vlist`; `vnone` is Python `None`. -/
inductive Val where
  | vint : ℤ → Val
  | vfloat : ℚ → Val
  | vbool : Bool → Val
  | vstr : Str → Val
  | vlist : List Val → Val
  | vsample : HitSample → Val
  | vnone : Val
deriving Repr

/-- An edge-list field of a parsed slider.  Python stores a reference to a
list object here; when the slider's edge data was omitted, that object is
the shared mutable default list of `SLIDER_TYPES` (`.shared`), otherwise a
fresh list (`.vals`). -/
inductive EdgeF (α : Type) where
  | shared : EdgeF α
  | vals : List α → EdgeF α
deriving DecidableEq, Repr

inductive HitObject where
  | HitCircle (x y time type sound : ℤ) (sample : HitSample)
  | Slider (x y time type sound : ℤ) (curvetype : Str)
      (curvepoints : List (ℤ × ℤ)) (slides : ℤ) (length : ℚ)
      (edgesounds : EdgeF ℤ) (edgesets : EdgeF (ℤ × ℤ)) (sample : HitSample)
  | Spinner (x y time type sound : ℤ) (endtime : ℤ) (sample : HitSample)
  | Hold (x y time type sound : ℤ) (endtime : ℤ) (sample : HitSample)
  | RawHitObject (x y time type sound : ℤ) (others : List Str)
deriving DecidableEq, Repr

inductive Event where
  | EventBackground (type : Str) (time : ℤ) (filename : Str) (xoffset yoffset : ℤ)
  | EventVideo (type : Str) (time : ℤ) (filename : Str) (xoffset yoffset : ℤ)
  | EventBreak (type : Str) (time : ℤ) (end_ : ℤ)
  | EventUnknown (type : Str) (params : List Str)
deriving DecidableEq, Repr

-- ---------------------------------------------------------------------------
-- Combinator library (combinator.py / parser.py, identical in both files).
-- A decode or encode step either raises (.error) or returns a value.
-- ---------------------------------------------------------------------------

structure ParserPair where
  parse : Val → Except Unit Val
  write : Val → Except Unit Val

/-- Source `typed(types, items)`: `[t(s) for t,s in zip(types, items)]`.
Python's `zip` truncates to the shorter list. -/
def typed (ts : List (Val → Except Unit Val)) (xs : List Val) : Except Unit (List Val) :=
  (List.zip ts xs).mapM (fun p => p.1 p.2)

/-- Source `ptuple(parsers, optionals)`. -/
def ptuple (parsers : List ParserPair) (optionals : List Val) : ParserPair where
  parse v :=
    match v with
    | .vlist data =>
      if data.length + optionals.length < parsers.length then .error ()
      else
        match typed (parsers.map (·.parse)) data with
        | .error e => .error e
        | .ok parsed =>
          if parsed.length < parsers.length then
            .ok (.vlist (parsed ++ optionals.drop (optionals.length - (parsers.length - parsed.length))))
          else .ok (.vlist parsed)
    | _ => .error ()
  write v :=
    match v with
    | .vlist obj =>
      match typed (parsers.map (·.write)) obj with
      | .error e => .error e
      | .ok ws => .ok (.vlist ws)
    | _ => .error ()

/-- Source `plist(parser)`. -/
def plist (parser : ParserPair) : ParserPair where
  parse v :=
    match v with
    | .vlist data => (data.mapM parser.parse).map .vlist
    | _ => .error ()
  write v :=
    match v with
    | .vlist obj => (obj.mapM parser.write).map .vlist
    | _ => .error ()

/-- Source `psplit(sep)`. -/
def psplit (sep : Char) : ParserPair where
  parse v :=
    match v with
    | .vstr s => .ok (.vlist ((pysplit sep s).map .vstr))
    | _ => .error ()
  write v :=
    match v with
    | .vlist obj =>
      match obj.mapM (fun x => match x with | .vstr s => some s | _ => none) with
      | some ss => .ok (.vstr (pyjoin sep ss))
      | none => .error ()
    | _ => .error ()

/-- Source `ptry(parser, return_on_fail)`: a bare `except` catches every decode
failure and substitutes the fallback; the write side is untouched. -/
def ptry (parser : ParserPair) (return_on_fail : Val) : ParserPair where
  parse v :=
    match parser.parse v with
    | .ok w => .ok w
    | .error _ => .ok return_on_fail
  write := parser.write

/-- Source `pcompose` restricted to two stages, the only arity the source uses
(via `plist_split`/`ptuple_split`): parse runs `b` then `a`, write runs
`a` then `b`. -/
def pcompose2 (a b : ParserPair) : ParserPair where
  parse v := match b.parse v with | .ok w => a.parse w | .error e => .error e
  write v := match a.write v with | .ok w => b.write w | .error e => .error e

def plist_split (sep : Char) (parser : ParserPair) : ParserPair :=
  pcompose2 (plist parser) (psplit sep)

def ptuple_split (sep : Char) (parsers : List ParserPair) : ParserPair :=
  pcompose2 (ptuple parsers []) (psplit sep)

-- ---------------------------------------------------------------------------
-- Scalar codecs (Parser.parse_int etc. in parser.py)
-- ---------------------------------------------------------------------------

/-- Source `Parser.parse_int(x) = int(round(float(x)))`. -/
def parse_int : Val → Except Unit Val
  | .vstr s =>
    match pyFloat s with
    | some q => .ok (.vint (roundHalfEven q))
    | none => .error ()
  | _ => .error ()

/-- Source `Parser.write_int(x) = str(int(x))` (`int()` truncates toward zero). -/
def write_int : Val → Except Unit Val
  | .vint i => .ok (.vstr (renderInt i))
  | .vfloat q => .ok (.vstr (renderInt (if 0 ≤ q then ⌊q⌋ else ⌈q⌉)))
  | .vbool b => .ok (.vstr (renderInt (if b then 1 else 0)))
  | _ => .error ()

/-- Source `Parser.parse_float(x) = float(x)`. -/
def parse_float : Val → Except Unit Val
  | .vstr s =>
    match pyFloat s with
    | some q => .ok (.vfloat q)
    | none => .error ()
  | _ => .error ()

/-- Source `Parser.write_float(x) = str(x)`. -/
def write_float : Val → Except Unit Val
  | .vfloat q => .ok (.vstr (renderFloat q))
  | .vint i => .ok (.vstr (renderInt i))
  | _ => .error ()

/-- Source `Parser.parse_bool(x) = bool(int(x))`; note `int()` on a string accepts
only integer literals. -/
def parse_bool : Val → Except Unit Val
  | .vstr s =>
    match pyInt s with
    | some i => .ok (.vbool (i ≠ 0))
    | none => .error ()
  | _ => .error ()

/-- Source `Parser.write_bool(x) = str(int(x))`. -/
def write_bool : Val → Except Unit Val
  | .vbool b => .ok (.vstr (if b then ['1'] else ['0']))
  | _ => .error ()

def osu_int : ParserPair := ⟨parse_int, write_int⟩
def osu_float : ParserPair := ⟨parse_float, write_float⟩
def osu_bool : ParserPair := ⟨parse_bool, write_bool⟩

/-- Source `ParserPair(str, str)`: the identity string codec. -/
def osu_str : ParserPair where
  parse v := match v with | .vstr s => .ok (.vstr s) | _ => .error ()
  write v := match v with | .vstr s => .ok (.vstr s) | _ => .error ()

-- ---------------------------------------------------------------------------
-- Hit objects (parser.py)
-- ---------------------------------------------------------------------------

def HITTYPE_CIRCLE : ℤ := 0b00000001
def HITTYPE_SLIDER : ℤ := 0b00000010
def HITTYPE_SPINNER : ℤ := 0b00001000
def HITTYPE_HOLD : ℤ := 0b10000000

/-- Source `Parser.hitobject_whattype`: first matching bit in the fixed ordering
circle, slider, spinner, hold; `none` when none of the four bits is set. -/
def hitobject_whattype (objtype : ℤ) : Option ℤ :=
  [HITTYPE_CIRCLE, HITTYPE_SLIDER, HITTYPE_SPINNER, HITTYPE_HOLD].find?
    (fun o => Int.land objtype o != 0)

def HITSAMPLE_TYPES : ParserPair :=
  ptuple_split ':' [osu_int, osu_int, osu_int, osu_int, osu_str]

def parse_hitsample (s : Str) : Except Unit HitSample :=
  match HITSAMPLE_TYPES.parse (.vstr s) with
  | .ok (.vlist [.vint a, .vint b, .vint c, .vint d, .vstr f]) => .ok ⟨a, b, c, d, f⟩
  | _ => .error ()

def write_hitsample (smp : HitSample) : Except Unit Str :=
  match HITSAMPLE_TYPES.write (.vlist [.vint smp.normal_set, .vint smp.addition_set,
      .vint smp.index, .vint smp.volume, .vstr smp.filename]) with
  | .ok (.vstr s) => .ok s
  | _ => .error ()

def hitsample_pair : ParserPair where
  parse v :=
    match v with
    | .vstr s => (parse_hitsample s).map .vsample
    | _ => .error ()
  write v :=
    match v with
    | .vsample smp => (write_hitsample smp).map .vstr
    | _ => .error ()

def default_hitsample : HitSample := ⟨0, 0, 0, 0, []⟩

/-- Curve point list codec inside `slider_curve`. -/
def slider_ptparse : ParserPair := plist_split '|' (ptuple_split ':' [osu_int, osu_int])

/-- Source `slider_curve()`: split the first slider token `T|x:y|x:y|...` on the
first `|` into the curve-type prefix and the point list. -/
def slider_curve : ParserPair where
  parse v :=
    match v with
    | .vstr obj =>
      let (t, _, pts) := pypartition '|' obj
      (slider_ptparse.parse (.vstr pts)).map (fun p => .vlist [.vstr t, p])
    | _ => .error ()
  write v :=
    match v with
    | .vlist [.vstr t, pts] =>
      match slider_ptparse.write pts with
      | .ok (.vstr s) => .ok (.vstr (t ++ '|' :: s))
      | _ => .error ()
    | _ => .error ()

def HITOBJECT_HEADER : ParserPair := ptuple [osu_int, osu_int, osu_int, osu_int, osu_int] []
def HITOBJECT_HEADER_SIZE : ℕ := 5

def HITCIRCLE_TYPES : ParserPair := ptuple [hitsample_pair] []
def SPINNER_TYPES : ParserPair := ptuple [osu_int, hitsample_pair] []

def SLIDER_PARSERS : List ParserPair :=
  [slider_curve, osu_int, osu_float,
   plist_split '|' (ptry osu_int (.vint 0)),
   plist_split '|' (ptuple_split ':' [osu_int, osu_int]),
   hitsample_pair]

/-- The contents of the two shared mutable default lists of
`SLIDER_TYPES` (`optionals=[None, [], [], default_hitsample()]` in the
source).  Python creates these two list objects once per `Parser`; the
slider decoder mutates them in place (`fillexact`), so their current
contents must be threaded through parsing. -/
structure DefState where
  o1 : List ℤ
  o2 : List (ℤ × ℤ)
deriving DecidableEq, Repr

def slider_optionals (st : DefState) : List Val :=
  [.vnone, .vlist (st.o1.map .vint),
   .vlist (st.o2.map (fun p => .vlist [.vint p.1, .vint p.2])),
   .vsample default_hitsample]

def SLIDER_TYPES (st : DefState) : ParserPair := ptuple SLIDER_PARSERS (slider_optionals st)

/-- Source `fillexact(arr, size, obj)`: right-pad with `obj` or truncate so that
the result has exactly `size` elements. -/
def fillexact {α : Type} (arr : List α) (size : ℕ) (obj : α) : List α :=
  if arr.length < size then arr ++ List.replicate (size - arr.length) obj
  else arr.take size

def valToInt : Val → Option ℤ
  | .vint i => some i
  | _ => none

def valToIntPair : Val → Option (ℤ × ℤ)
  | .vlist [.vint a, .vint b] => some (a, b)
  | _ => none

structure SliderData where
  curvetype : Str
  curvepoints : List (ℤ × ℤ)
  slides : ℤ
  length : ℚ
  edgesounds : EdgeF ℤ
  edgesets : EdgeF (ℤ × ℤ)
  sample : HitSample
deriving DecidableEq, Repr

/-- Source `Parser.parse_slider_params`.  When the edge lists come from the
shared defaults (fewer than 4 / 5 raw tokens), `fillexact` mutates those
shared lists and the record aliases them (`EdgeF.shared`); the updated
`DefState` carries the new contents.  The omitted-length warning path
coerces `None` to 0. -/
def parse_slider_params (st : DefState) (raw : List Str) :
    Except Unit (SliderData × DefState) :=
  match (SLIDER_TYPES st).parse (.vlist (raw.map .vstr)) with
  | .ok (.vlist [.vlist [.vstr ct, .vlist cpsv], .vint slides, lenv,
                 .vlist esv, .vlist esetsv, .vsample smp]) =>
    match cpsv.mapM valToIntPair, esv.mapM valToInt, esetsv.mapM valToIntPair,
          (match lenv with | .vnone => some (0 : ℚ) | .vfloat q => some q | _ => none) with
    | some cps, some es0, some esets0, some len =>
      .ok (⟨ct, cps, slides, len,
            (if raw.length < 4 then .shared else .vals (fillexact es0 cps.length 0)),
            (if raw.length < 5 then .shared else .vals (fillexact esets0 cps.length (0, 0))),
            smp⟩,
          ⟨if raw.length < 4 then fillexact es0 cps.length 0 else st.o1,
           if raw.length < 5 then fillexact esets0 cps.length (0, 0) else st.o2⟩)
    | _, _, _, _ => .error ()
  | _ => .error ()

/-- Source `Parser.parse_hitcircle_params`. -/
def parse_hitcircle_params (raw : List Str) : Except Unit HitSample :=
  match raw with
  | [] => .ok default_hitsample
  | p :: _ =>
    if pystrip p = [] then .ok default_hitsample
    else
      match HITCIRCLE_TYPES.parse (.vlist (raw.map .vstr)) with
      | .ok (.vlist [.vsample smp]) => .ok smp
      | _ => .error ()

/-- Source `Parser.parse_spinner_params`. -/
def parse_spinner_params (raw : List Str) : Except Unit (ℤ × HitSample) :=
  match SPINNER_TYPES.parse (.vlist (raw.map .vstr)) with
  | .ok (.vlist [.vint e, .vsample smp]) => .ok (e, smp)
  | _ => .error ()

/-- Source `Parser.parse_hold_params`: split the first remaining token on the
first `:` into endtime and hit sample (raises on an empty token list). -/
def parse_hold_params (raw : List Str) : Except Unit (ℤ × HitSample) :=
  match raw with
  | [] => .error ()
  | p :: _ =>
    let (endtime, _, smp) := pypartition ':' p
    match parse_int (.vstr endtime), parse_hitsample smp with
    | .ok (.vint e), .ok s => .ok (e, s)
    | _, _ => .error ()

/-- Source `Parser.parse_hitobject`.  The first five comma tokens form the header;
the bitmask selects the variant; no matching bit yields `RawHitObject`
carrying the raw remaining tokens untouched. -/
def parse_hitobject (st : DefState) (line : Str) : Except Unit (HitObject × DefState) :=
  match HITOBJECT_HEADER.parse (.vlist (((pysplit ',' line).take HITOBJECT_HEADER_SIZE).map .vstr)) with
  | .ok (.vlist [.vint x, .vint y, .vint t, .vint ty, .vint snd]) =>
    match hitobject_whattype ty with
    | some w =>
      if w = HITTYPE_CIRCLE then
        (parse_hitcircle_params ((pysplit ',' line).drop HITOBJECT_HEADER_SIZE)).map
          (fun smp => (.HitCircle x y t ty snd smp, st))
      else if w = HITTYPE_SLIDER then
        (parse_slider_params st ((pysplit ',' line).drop HITOBJECT_HEADER_SIZE)).map (fun r =>
          (.Slider x y t ty snd r.1.curvetype r.1.curvepoints r.1.slides r.1.length
             r.1.edgesounds r.1.edgesets r.1.sample, r.2))
      else if w = HITTYPE_SPINNER then
        (parse_spinner_params ((pysplit ',' line).drop HITOBJECT_HEADER_SIZE)).map
          (fun r => (.Spinner x y t ty snd r.1 r.2, st))
      else if w = HITTYPE_HOLD then
        (parse_hold_params ((pysplit ',' line).drop HITOBJECT_HEADER_SIZE)).map
          (fun r => (.Hold x y t ty snd r.1 r.2, st))
      else .error ()
    | none => .ok (.RawHitObject x y t ty snd ((pysplit ',' line).drop HITOBJECT_HEADER_SIZE), st)
  | .ok _ => .error ()
  | .error _ => .error ()

/-- Source `Parser.parse_hitobject_section` (the `None` filter in the source is
dead code: `parse_hitobject` never returns `None`). -/
def parse_hitobject_section (st : DefState) (lines : List Str) :
    Except Unit (List HitObject × DefState) :=
  lines.foldlM (fun acc line =>
    (parse_hitobject acc.2 line).map (fun r => (acc.1 ++ [r.1], r.2))) ([], st)

/-- Current value of an edge-list field given the contents of the shared
default list it may alias. -/
def resolveEdge {α : Type} (cur : List α) : EdgeF α → List α
  | .shared => cur
  | .vals l => l

/-- Snapshot a hit object's aliased edge lists at the given state (what
Python sees whenever it reads the record's fields). -/
def resolveHO (st : DefState) : HitObject → HitObject
  | .Slider x y t ty snd ct cps sl len es esets smp =>
    .Slider x y t ty snd ct cps sl len (.vals (resolveEdge st.o1 es))
      (.vals (resolveEdge st.o2 esets)) smp
  | o => o

def valsToStrs (l : List Val) : Option (List Str) :=
  l.mapM (fun v => match v with | .vstr s => some s | _ => none)

/-- Source `Parser.write_hitobject` on a record whose aliased lists have been
resolved (Python reads the lists' current contents when writing). -/
def write_hitobject (obj : HitObject) : Except Unit Str :=
  let header := fun (x y t ty snd : ℤ) =>
    match HITOBJECT_HEADER.write (.vlist [.vint x, .vint y, .vint t, .vint ty, .vint snd]) with
    | .ok (.vlist hs) => (valsToStrs hs).elim (Except.error ()) .ok
    | _ => .error ()
  match obj with
  | .HitCircle x y t ty snd smp =>
    match header x y t ty snd, HITCIRCLE_TYPES.write (.vlist [.vsample smp]) with
    | .ok hs, .ok (.vlist os) => (valsToStrs os).elim (Except.error ())
        (fun os => .ok (pyjoin ',' (hs ++ os)))
    | _, _ => .error ()
  | .Spinner x y t ty snd e smp =>
    match header x y t ty snd, SPINNER_TYPES.write (.vlist [.vint e, .vsample smp]) with
    | .ok hs, .ok (.vlist os) => (valsToStrs os).elim (Except.error ())
        (fun os => .ok (pyjoin ',' (hs ++ os)))
    | _, _ => .error ()
  | .Hold x y t ty snd e smp =>
    match header x y t ty snd, write_hitsample smp with
    | .ok hs, .ok ss => .ok (pyjoin ',' (hs ++ [renderInt e ++ ':' :: ss]))
    | _, _ => .error ()
  | .Slider x y t ty snd ct cps sl len es esets smp =>
    match es, esets with
    | .vals esl, .vals esetsl =>
      match header x y t ty snd,
        (SLIDER_TYPES ⟨[], []⟩).write (.vlist
          [.vlist [.vstr ct, .vlist (cps.map (fun p => .vlist [.vint p.1, .vint p.2]))],
           .vint sl, .vfloat len, .vlist (esl.map .vint),
           .vlist (esetsl.map (fun p => .vlist [.vint p.1, .vint p.2])),
           .vsample smp]) with
      | .ok hs, .ok (.vlist os) => (valsToStrs os).elim (Except.error ())
          (fun os => .ok (pyjoin ',' (hs ++ os)))
      | _, _ => .error ()
    | _, _ => .error ()
  | .RawHitObject x y t ty snd others =>
    match header x y t ty snd with
    | .ok hs => .ok (pyjoin ',' (hs ++ others))
    | _ => .error ()

def write_hitobject_section (objs : List HitObject) : Except Unit (List Str) :=
  objs.mapM write_hitobject

-- ---------------------------------------------------------------------------
-- Timing points (parser.py)
-- ---------------------------------------------------------------------------

def TIMINGPOINT_PARSE_TYPE : List (Val → Except Unit Val) :=
  [parse_int, parse_float, parse_int, parse_int, parse_int, parse_int, parse_bool, parse_int]

/-- Source `construct_tp` inside `Parser.parse_timingpoint`: positional arguments
`time, tick, meter, sampleset` with defaults
`sampleindex=0, volume=100, uninherited=True, effects=0`; any other
argument count raises. -/
def construct_tp : List Val → Option TimingPoint
  | [.vint t, .vfloat k, .vint m, .vint ss] =>
    some ⟨t, k, m, ss, 0, 100, true, 0⟩
  | [.vint t, .vfloat k, .vint m, .vint ss, .vint si] =>
    some ⟨t, k, m, ss, si, 100, true, 0⟩
  | [.vint t, .vfloat k, .vint m, .vint ss, .vint si, .vint vol] =>
    some ⟨t, k, m, ss, si, vol, true, 0⟩
  | [.vint t, .vfloat k, .vint m, .vint ss, .vint si, .vint vol, .vbool u] =>
    some ⟨t, k, m, ss, si, vol, u, 0⟩
  | [.vint t, .vfloat k, .vint m, .vint ss, .vint si, .vint vol, .vbool u, .vint e] =>
    some ⟨t, k, m, ss, si, vol, u, e⟩
  | _ => none

/-- Source `Parser.parse_timingpoint`: only the `typed` conversion is inside the
`try`, so a failing scalar decode drops the record (`.ok none`) while a bad
argument count for `construct_tp` raises (`.error`). -/
def parse_timingpoint (line : Str) : Except Unit (Option TimingPoint) :=
  match typed TIMINGPOINT_PARSE_TYPE ((pysplit ',' line).map .vstr) with
  | .error _ => .ok none
  | .ok args =>
    match construct_tp args with
    | some tp => .ok (some tp)
    | none => .error ()

def parse_timingpoint_section (lines : List Str) : Except Unit (List TimingPoint) :=
  (lines.mapM parse_timingpoint).map (·.filterMap id)

/-- Source `Parser.write_timingpoint`: `typed(WRITE_TYPE, astuple(tp))` joined on commas. -/
def write_timingpoint (tp : TimingPoint) : Str :=
  pyjoin ',' [renderInt tp.time, renderFloat tp.tick, renderInt tp.meter,
    renderInt tp.sampleset, renderInt tp.sampleindex, renderInt tp.volume,
    (if tp.uninherited then ['1'] else ['0']), renderInt tp.effects]

def write_timingpoint_section (tps : List TimingPoint) : List Str :=
  tps.map write_timingpoint

-- ---------------------------------------------------------------------------
-- Metadata sections (parser.py)
-- ---------------------------------------------------------------------------

/-- Source `Editor.Bookmarks` codec: comma-separated ints. -/
def bookmarks_pair : ParserPair where
  parse v :=
    match v with
    | .vstr s => ((pysplit ',' s).mapM (fun i => parse_int (.vstr i))).map .vlist
    | _ => .error ()
  write v :=
    match v with
    | .vlist l =>
      match l.mapM (fun x => match write_int x with | .ok (.vstr s) => some s | _ => none) with
      | some ss => .ok (.vstr (pyjoin ',' ss))
      | none => .error ()
    | _ => .error ()

/-- Source `Metadata.Tags` codec: strip, then split on single spaces. -/
def tags_pair : ParserPair where
  parse v :=
    match v with
    | .vstr s => .ok (.vlist ((pysplit ' ' (pystrip s)).map .vstr))
    | _ => .error ()
  write v :=
    match v with
    | .vlist l => (valsToStrs l).elim (Except.error ()) (fun ss => .ok (.vstr (pyjoin ' ' ss)))
    | _ => .error ()

def general_table (key : Str) : Option ParserPair :=
  if key == "AudioLeadIn".data then some osu_int
  else if key == "PreviewTime".data then some osu_int
  else if key == "Countdown".data then some osu_int
  else if key == "StackLeniency".data then some osu_float
  else if key == "Mode".data then some osu_int
  else if key == "LetterboxInBreaks".data then some osu_bool
  else if key == "StoryFireInFront".data then some osu_bool
  else if key == "EpilepsyWarning".data then some osu_bool
  else if key == "CountdownOffset".data then some osu_int
  else if key == "WidescreenStoryboard".data then some osu_bool
  else if key == "SpecialStyle".data then some osu_bool
  else if key == "UseSkinSprites".data then some osu_bool
  else if key == "SamplesMatchPlaybackRate".data then some osu_bool
  else if key == "AlwaysShowPlayfield".data then some osu_bool
  else none

def editor_table (key : Str) : Option ParserPair :=
  if key == "Bookmarks".data then some bookmarks_pair
  else if key == "DistanceSpacing".data then some osu_float
  else if key == "BeatDivisor".data then some osu_int
  else if key == "GridSize".data then some osu_int
  else if key == "TimelineZoom".data then some osu_float
  else none

def metadata_table (key : Str) : Option ParserPair :=
  if key == "BeatmapID".data then some osu_int
  else if key == "BeatmapSetID".data then some osu_int
  else if key == "Tags".data then some tags_pair
  else none

def difficulty_table (key : Str) : Option ParserPair :=
  if key == "HPDrainRate".data then some osu_float
  else if key == "CircleSize".data then some osu_float
  else if key == "OverallDifficulty".data then some osu_float
  else if key == "ApproachRate".data then some osu_float
  else if key == "SliderMultiplier".data then some osu_float
  else if key == "SliderTickRate".data then some osu_float
  else none

/-- Source `Parser.METADATA_TYPES`: per-section key tables; `none` for a section
name not in the dict (Python raises `KeyError`). -/
def METADATA_TYPES (sec : Str) : Option (Str → Option ParserPair) :=
  if sec == "General".data then some general_table
  else if sec == "Editor".data then some editor_table
  else if sec == "Metadata".data then some metadata_table
  else if sec == "Difficulty".data then some difficulty_table
  else none

/-- Source `Parser.lookup_metadata_codec`: table lookup with identity-string
fallback for unknown keys; `none` when the section itself is unknown. -/
def lookup_metadata_codec (sec key : Str) : Option ParserPair :=
  (METADATA_TYPES sec).map (fun tbl => (tbl key).getD osu_str)

/-- Source `Parser.parse_metadata`: split the line on the first `:`; no colon means
the line is skipped (`none`); a decode failure (or unknown section) raises. -/
def parse_metadata (sec line : Str) : Except Unit (Option (Str × Val)) :=
  let (key0, found, val) := pypartition ':' line
  if !found then .ok none
  else
    let key := pystrip key0
    match lookup_metadata_codec sec key with
    | none => .error ()
    | some pp =>
      match pp.parse (.vstr (pystrip val)) with
      | .ok v => .ok (some (key, v))
      | .error _ => .error ()

/-- Python dict assignment `d[k] = v`: overwrite in place when the key
exists (keeping its slot), else append. -/
def dictSet (d : List (Str × Val)) (k : Str) (v : Val) : List (Str × Val) :=
  if d.any (fun p => p.1 == k) then
    d.map (fun p => if p.1 == k then (k, v) else p)
  else d ++ [(k, v)]

/-- Source `Parser.parse_metadata_section`: an insertion-ordered mapping built
line by line. -/
def parse_metadata_section (sec : Str) (lines : List Str) : Except Unit (List (Str × Val)) :=
  lines.foldlM (fun d line =>
    match parse_metadata sec line with
    | .error e => .error e
    | .ok none => .ok d
    | .ok (some (k, v)) => .ok (dictSet d k v)) []

/-- Source `Parser.write_metadata`: one `key:value` line. -/
def write_metadata (sec : Str) (kv : Str × Val) : Except Unit Str :=
  match lookup_metadata_codec sec kv.1 with
  | none => .error ()
  | some pp =>
    match pp.write kv.2 with
    | .ok (.vstr s) => .ok (kv.1 ++ ':' :: s)
    | _ => .error ()

/-- Source `Parser.write_metadata_section`: one line per mapping entry, in stored
order. -/
def write_metadata_section (sec : Str) (d : List (Str × Val)) : Except Unit (List Str) :=
  d.mapM (write_metadata sec)

-- ---------------------------------------------------------------------------
-- Events section (sections.py, class Events)
-- ---------------------------------------------------------------------------

/-- Source `osu_quoted_str`: `lambda x: osu_str.parse(x.strip('"'))` on the parse
side, plain `osu_str.write` on the write side. -/
def osu_quoted_str : ParserPair where
  parse v :=
    match v with
    | .vstr s => .ok (.vstr (pystripQuotes s))
    | _ => .error ()
  write := osu_str.write

/-- The single header codec: `lambda x: osu_str.parse(x.strip())`. -/
def event_header_pair : ParserPair where
  parse v :=
    match v with
    | .vstr s => .ok (.vstr (pystrip s))
    | _ => .error ()
  write := osu_str.write

def EVENT_HEADER : ParserPair := ptuple [event_header_pair] []

inductive EventType where
  | BACKGROUND
  | VIDEO
  | BREAK
deriving DecidableEq, Repr

/-- Source `Events.whattype`. -/
def event_whattype (objtype : Str) : Option EventType :=
  if objtype == "0".data then some .BACKGROUND
  else if objtype == "1".data then some .VIDEO
  else if objtype == "Video".data then some .VIDEO
  else if objtype == "2".data then some .BREAK
  else none

def BACKGROUND_TYPES : ParserPair :=
  ptuple [osu_int, osu_quoted_str, osu_int, osu_int] [.vint 0, .vint 0]

def BREAK_TYPES : ParserPair := ptuple [osu_int, osu_int] []

/-- Source `Events.parse_line`. -/
def parse_event_line (line : Str) : Except Unit Event :=
  let tokens := pysplit ',' line
  let raw_header := tokens.take 1
  let raw_others := tokens.drop 1
  match EVENT_HEADER.parse (.vlist (raw_header.map .vstr)) with
  | .ok (.vlist [.vstr h]) =>
    match event_whattype h with
    | some .BACKGROUND =>
      match BACKGROUND_TYPES.parse (.vlist (raw_others.map .vstr)) with
      | .ok (.vlist [.vint t, .vstr fn, .vint xo, .vint yo]) =>
        .ok (.EventBackground h t fn xo yo)
      | _ => .error ()
    | some .VIDEO =>
      match BACKGROUND_TYPES.parse (.vlist (raw_others.map .vstr)) with
      | .ok (.vlist [.vint t, .vstr fn, .vint xo, .vint yo]) =>
        .ok (.EventVideo h t fn xo yo)
      | _ => .error ()
    | some .BREAK =>
      match BREAK_TYPES.parse (.vlist (raw_others.map .vstr)) with
      | .ok (.vlist [.vint t, .vint e]) => .ok (.EventBreak h t e)
      | _ => .error ()
    | none => .ok (.EventUnknown h raw_others)
  | _ => .error ()

/-- Source `Events.parse`: strip each line, skip blanks and `//` comments. -/
def parse_events_section (lines : List Str) : Except Unit (List Event) :=
  (lines.filterMap (fun l =>
    let l := pystrip l
    if l = [] then none
    else if pystartswith "//".data l then none
    else some l)).mapM parse_event_line

/-- Source `Events.write_line`. -/
def write_event_line (e : Event) : Except Unit Str :=
  match e with
  | .EventBackground ty t fn xo yo =>
    match BACKGROUND_TYPES.write (.vlist [.vint t, .vstr fn, .vint xo, .vint yo]) with
    | .ok (.vlist os) => (valsToStrs os).elim (Except.error ())
        (fun os => .ok (pyjoin ',' (ty :: os)))
    | _ => .error ()
  | .EventVideo ty t fn xo yo =>
    match BACKGROUND_TYPES.write (.vlist [.vint t, .vstr fn, .vint xo, .vint yo]) with
    | .ok (.vlist os) => (valsToStrs os).elim (Except.error ())
        (fun os => .ok (pyjoin ',' (ty :: os)))
    | _ => .error ()
  | .EventBreak ty t en =>
    match BREAK_TYPES.write (.vlist [.vint t, .vint en]) with
    | .ok (.vlist os) => (valsToStrs os).elim (Except.error ())
        (fun os => .ok (pyjoin ',' (ty :: os)))
    | _ => .error ()
  | .EventUnknown ty params => .ok (pyjoin ',' (ty :: params))

-- ---------------------------------------------------------------------------
-- File level (parser.py: Parser.parse / Parser.write)
-- ---------------------------------------------------------------------------

inductive SectionData where
  | metadata : List (Str × Val) → SectionData
  | timing : List TimingPoint → SectionData
  | hitobjects : List HitObject → SectionData
  | events : List (List Str) → SectionData
  | raw : List Str → SectionData

/-- Source `OsuFile`: an insertion-ordered mapping of section names plus the
`header` attribute set by `parse`. -/
structure OsuFile where
  header : Str
  sections : List (Str × SectionData)

/-- Source `scrub` inside `Parser.parse`: drop blank and `//` lines. -/
def scrub (lines : List Str) : List Str :=
  lines.filter (fun l => !(l == []) && !pystartswith "//".data l)

/-- Source `spliton`/`groupby` grouping of stripped lines into sections, with
`itertools.groupby` merging behaviour: a header line equal (as a string)
to the current section's header continues the current group as a data
line; lines before the first header are dropped. -/
def splitSections (lines : List Str) : List (Str × List Str) :=
  let step := fun (acc : List (Str × List Str) × Option (Str × List Str)) (l : Str) =>
    match acc with
    | (done, cur) =>
      if pystartswith "[".data l then
        match cur with
        | some (k, ls) =>
          if k == l then (done, some (k, ls ++ [l]))
          else (done ++ [(k, ls)], some (l, []))
        | none => (done, some (l, []))
      else
        match cur with
        | some (k, ls) => (done, some (k, ls ++ [l]))
        | none => (done, cur)
  match lines.foldl step ([], none) with
  | (done, some g) => done ++ [g]
  | (done, none) => done

def isMetadataSectionName (n : Str) : Bool :=
  n == "General".data || n == "Editor".data || n == "Metadata".data || n == "Difficulty".data

/-- Ordered-dict assignment on the section mapping. -/
def osuSet (d : List (Str × SectionData)) (k : Str) (v : SectionData) :
    List (Str × SectionData) :=
  if d.any (fun p => p.1 == k) then
    d.map (fun p => if p.1 == k then (k, v) else p)
  else d ++ [(k, v)]

/-- Source `dict.setdefault`: insert only when absent. -/
def osuSetdefault (d : List (Str × SectionData)) (k : Str) (v : SectionData) :
    List (Str × SectionData) :=
  if d.any (fun p => p.1 == k) then d else d ++ [(k, v)]

/-- Source `Parser.parse`: the first line (stripped) becomes `osu.header`; the
remaining lines are stripped, grouped into bracketed sections and
dispatched.  An empty input raises (`next(file)` raises `StopIteration`).
The slider default-list state is threaded across hit-object sections and
the parsed records' aliased lists are snapshotted at the final state. -/
def Parser_parse_step (acc : List (Str × SectionData) × DefState) (g : Str × List Str) :
    Except Unit (List (Str × SectionData) × DefState) :=
  let name := (g.1.drop 1).dropLast
  let ls := g.2
  if isMetadataSectionName name then
    (parse_metadata_section name ls).map (fun d => (osuSet acc.1 name (.metadata d), acc.2))
  else if name == "TimingPoints".data then
    (parse_timingpoint_section ls).map (fun d => (osuSet acc.1 name (.timing d), acc.2))
  else if name == "HitObjects".data then
    (parse_hitobject_section acc.2 ls).map (fun r =>
      (osuSet acc.1 name (.hitobjects r.1), r.2))
  else if name == "Events".data then
    .ok (osuSet acc.1 name (.events ((scrub ls).map (pysplit ','))), acc.2)
  else
    .ok (osuSetdefault acc.1 name (.raw ls), acc.2)

def Parser_parse : List Str → Except Unit OsuFile
  | [] => .error ()
  | first :: rest =>
    match (splitSections (rest.map pystrip)).foldlM Parser_parse_step
        ([], (⟨[], []⟩ : DefState)) with
    | .error e => .error e
    | .ok (secs, stFin) =>
      .ok ⟨pystrip first,
        secs.map (fun p =>
          match p.2 with
          | .hitobjects hs => (p.1, .hitobjects (hs.map (resolveHO stFin)))
          | d => (p.1, d))⟩

/-- Serialized lines of one section, dispatched by section name exactly as
in `Parser.write`. -/
def write_section (n : Str) (d : SectionData) : Except Unit (List Str) :=
  if isMetadataSectionName n then
    match d with
    | .metadata m => write_metadata_section n m
    | _ => .error ()
  else if n == "TimingPoints".data then
    match d with
    | .timing tps => .ok (write_timingpoint_section tps)
    | _ => .error ()
  else if n == "HitObjects".data then
    match d with
    | .hitobjects hs => write_hitobject_section hs
    | _ => .error ()
  else if n == "Events".data then
    match d with
    | .events es => .ok (es.map (pyjoin ','))
    | _ => .error ()
  else
    match d with
    | .raw ls => .ok ls
    | _ => .error ()

/-- Source `Parser.write`: the fixed header line `osu file format v14`, then for
each section a blank line, the bracketed name, and the section's lines.
The `osu.header` attribute is never consulted. -/
def Parser_write (osu : OsuFile) : Except Unit (List Str) :=
  match osu.sections.mapM (fun p =>
      (write_section p.1 p.2).map (fun ls => [] :: ('[' :: p.1 ++ [']']) :: ls)) with
  | .ok body => .ok ("osu file format v14".data :: body.flatten)
  | .error e => .error e

-- ---------------------------------------------------------------------------
-- Round-trip harness (test/SectionTest.py `_test_roundtrip`):
-- first = parse(lines); second = parse(write(first)); compare first, second.
-- ---------------------------------------------------------------------------

/-- The hit-object section round-trip check exactly as the repository's
`_test_roundtrip` helper runs it: parse, write, parse again, compare with
`==`.  The shared default-list state persists across the two parses (one
`Parser` instance) and records' aliased lists are read at comparison time,
i.e. at the final state.  Returns `none` when a stage raises. -/
def roundtrip_hitobjects (lines : List Str) : Option Bool :=
  match parse_hitobject_section ⟨[], []⟩ lines with
  | .error _ => none
  | .ok (r1, s1) =>
    match (r1.map (resolveHO s1)).mapM write_hitobject with
    | .error _ => none
    | .ok w =>
      match parse_hitobject_section s1 w with
      | .error _ => none
      | .ok (r2, s2) =>
        match parse_hitobject_section s2 lines with
        | .error _ => none
        | .ok (r3, s3) =>
          some ((r2.map (resolveHO s3)) == (r3.map (resolveHO s3)))

/-- Modelled from the spec: "filename decode strips one layer of
surrounding double-quotes if present" — remove exactly one leading and one
trailing quote when the token both starts and ends with `"`, else return
the token unchanged.  Used only to compare the specified behaviour with
the source's `x.strip('"')`. -/
def stripOneLayerSpec (s : Str) : Str :=
  if 2 ≤ s.length ∧ s.head? = some '"' ∧ s.getLast? = some '"' then
    (s.drop 1).dropLast
  else s

-- ---------------------------------------------------------------------------
-- Helper lemmas
-- ---------------------------------------------------------------------------

theorem fillexact_length {α : Type} (arr : List α) (n : ℕ) (x : α) :
    (fillexact arr n x).length = n := by
  unfold fillexact
  split <;> simp <;> omega

theorem zip_take_length {α β : Type} (ts : List α) (xs : List β) :
    List.zip ts xs = List.zip ts (xs.take ts.length) := by
  induction ts generalizing xs with
  | nil => simp
  | cons t ts ih =>
    cases xs with
    | nil => simp
    | cons x xs => simpa using ih xs

theorem typed_take (ts : List (Val → Except Unit Val)) (xs : List Val) :
    typed ts xs = typed ts (xs.take ts.length) := by
  unfold typed
  rw [← zip_take_length]

theorem except_mapM_length {α β : Type} {f : α → Except Unit β} :
    ∀ {l : List α} {ys : List β}, l.mapM f = .ok ys → ys.length = l.length := by
  intro l
  induction l with
  | nil =>
    intro ys h
    rw [List.mapM_nil] at h
    cases h
    rfl
  | cons a t ih =>
    intro ys h
    rw [List.mapM_cons] at h
    cases hfa : f a with
    | error e =>
      rw [hfa] at h
      simp only [Bind.bind, Except.bind] at h
      cases h
    | ok b =>
      rw [hfa] at h
      cases hmt : t.mapM f with
      | error e =>
        rw [hmt] at h
        simp only [Bind.bind, Except.bind] at h
        cases h
      | ok ys' =>
        rw [hmt] at h
        simp only [Bind.bind, Except.bind, pure, Except.pure] at h
        cases h
        simp [ih hmt]

theorem typed_ok_length {ts : List (Val → Except Unit Val)} {xs : List Val} {ys : List Val}
    (h : typed ts xs = .ok ys) : ys.length = min ts.length xs.length := by
  have := except_mapM_length h
  simpa [List.length_zip] using this

theorem typed_two (f g : Val → Except Unit Val) (x y : Val) (rest : List Val) :
    typed [f, g] (x :: y :: rest) =
      (match f x with
       | .error e => .error e
       | .ok a =>
         match g y with
         | .error e => .error e
         | .ok b => .ok [a, b]) := by
  have hz : List.zip [f, g] (x :: y :: rest) = [(f, x), (g, y)] := rfl
  unfold typed
  rw [hz, List.mapM_cons, List.mapM_cons, List.mapM_nil]
  cases hfx : f x with
  | error e => simp [Bind.bind, Except.bind, hfx]
  | ok a =>
    cases hgy : g y with
    | error e => simp [Bind.bind, Except.bind, hfx, hgy]
    | ok b => simp [Bind.bind, Except.bind, pure, Except.pure, hfx, hgy]

theorem stripWhile_eq_self {p : Char → Bool} {s : Str}
    (h1 : ∀ c, s.head? = some c → p c = false)
    (h2 : ∀ c, s.getLast? = some c → p c = false) : stripWhile p s = s := by
  have drop1 : s.dropWhile p = s := by
    cases s with
    | nil => rfl
    | cons c t => simp [List.dropWhile_cons, h1 c rfl]
  unfold stripWhile
  rw [drop1]
  have drop2 : s.reverse.dropWhile p = s.reverse := by
    cases hr : s.reverse with
    | nil => rfl
    | cons c t =>
      have : s.getLast? = some c := by
        rw [← List.head?_reverse, hr]; rfl
      simp [List.dropWhile_cons, h2 c this]
  rw [drop2, List.reverse_reverse]

theorem hitobject_whattype_eq (t : ℤ) :
    hitobject_whattype t =
      (if Int.land t HITTYPE_CIRCLE != 0 then some HITTYPE_CIRCLE
       else if Int.land t HITTYPE_SLIDER != 0 then some HITTYPE_SLIDER
       else if Int.land t HITTYPE_SPINNER != 0 then some HITTYPE_SPINNER
       else if Int.land t HITTYPE_HOLD != 0 then some HITTYPE_HOLD
       else none) := by
  simp only [hitobject_whattype, List.find?]
  cases h1 : (Int.land t HITTYPE_CIRCLE != 0) <;>
    cases h2 : (Int.land t HITTYPE_SLIDER != 0) <;>
      cases h3 : (Int.land t HITTYPE_SPINNER != 0) <;>
        cases h4 : (Int.land t HITTYPE_HOLD != 0) <;>
          simp [h1, h2, h3, h4]

-- ---------------------------------------------------------------------------
-- Claim theorems
-- ---------------------------------------------------------------------------

/-- Claim C2: for every hit-object line whose 5-field integer header
parses, the variant is selected solely by testing the type bitmask bits in
priority order circle (0x01), slider (0x02), spinner (0x08), hold (0x80),
first set bit winning; type 0b10000001 yields HitCircle, 0b00001010 yields
Slider; with none of the four bits set, the result is a `RawHitObject`
whose `others` is the raw remaining token list, and that path never
raises. -/
theorem c2_hitobject_bitmask_dispatch :
    (∀ t : ℤ, hitobject_whattype t =
      (if Int.land t HITTYPE_CIRCLE != 0 then some HITTYPE_CIRCLE
       else if Int.land t HITTYPE_SLIDER != 0 then some HITTYPE_SLIDER
       else if Int.land t HITTYPE_SPINNER != 0 then some HITTYPE_SPINNER
       else if Int.land t HITTYPE_HOLD != 0 then some HITTYPE_HOLD
       else none)) ∧
    (parse_hitobject ⟨[], []⟩ "0,0,0,129,0".data =
      .ok (.HitCircle 0 0 0 129 0 default_hitsample, ⟨[], []⟩)) ∧
    (parse_hitobject ⟨[], []⟩ "0,0,0,10,0,L|1:2,1".data =
      .ok (.Slider 0 0 0 10 0 ['L'] [(1, 2)] 1 0 .shared .shared default_hitsample,
        ⟨[0], [(0, 0)]⟩)) ∧
    (∀ st line x y t ty snd,
      HITOBJECT_HEADER.parse
          (.vlist (((pysplit ',' line).take HITOBJECT_HEADER_SIZE).map .vstr)) =
        .ok (.vlist [.vint x, .vint y, .vint t, .vint ty, .vint snd]) →
      hitobject_whattype ty = none →
      parse_hitobject st line =
        .ok (.RawHitObject x y t ty snd ((pysplit ',' line).drop HITOBJECT_HEADER_SIZE), st)) := by
  refine ⟨hitobject_whattype_eq, by with_unfolding_all rfl, by with_unfolding_all rfl, ?_⟩
  intro st line x y t ty snd hhdr hty
  simp only [parse_hitobject, hhdr, hty]

/-- Witness for C2 at the concrete line `1,2,3,0,5,a,b` (type 0, no bits
set): the fallback produces a `RawHitObject` carrying the raw tokens. -/
theorem c2_hitobject_bitmask_dispatch_witness :
    parse_hitobject ⟨[], []⟩ "1,2,3,0,5,a,b".data =
      .ok (.RawHitObject 1 2 3 0 5
        ((pysplit ',' "1,2,3,0,5,a,b".data).drop HITOBJECT_HEADER_SIZE), ⟨[], []⟩) :=
  c2_hitobject_bitmask_dispatch.2.2.2 ⟨[], []⟩ "1,2,3,0,5,a,b".data 1 2 3 0 5
    (by with_unfolding_all rfl) (by with_unfolding_all rfl)

/-- Claim C4 counterexample: `ptuple([osu_int]).parse(["x"])` raises even
though the token count (1) plus the default count (0) is not less than the
codec count (1), so decode does not raise "exactly when" the arity check
fails. -/
theorem c4_counterexample :
    (ptuple [osu_int] []).parse (.vlist [.vstr ['x']]) = .error () ∧
    ¬ (([(.vstr ['x'] : Val)].length + ([] : List Val).length) < [osu_int].length) :=
  ⟨by with_unfolding_all rfl, by simp⟩

/-- Claim C4 (amended): decode raises an arity error exactly when token
count plus default count is below the codec count; with sufficient arity a
failing element codec still propagates its failure; on success the first
`min n codecs` tokens are decoded positionally and missing trailing
positions are filled with the last `codecs − n` defaults, right-aligned;
tokens beyond the codec count never affect the result. -/
theorem c4_ptuple_arity :
    (∀ ps opts (data : List Val), data.length + opts.length < ps.length →
      (ptuple ps opts).parse (.vlist data) = .error ()) ∧
    (∀ ps opts (data : List Val) e, ¬ (data.length + opts.length < ps.length) →
      typed (ps.map (·.parse)) data = .error e →
      (ptuple ps opts).parse (.vlist data) = .error ()) ∧
    (∀ ps opts (data : List Val) parsed, ¬ (data.length + opts.length < ps.length) →
      typed (ps.map (·.parse)) data = .ok parsed →
      (ptuple ps opts).parse (.vlist data) =
        .ok (.vlist (if parsed.length < ps.length then
          parsed ++ opts.drop (opts.length - (ps.length - parsed.length)) else parsed))) ∧
    (∀ ps opts (data : List Val), ps.length ≤ data.length →
      (ptuple ps opts).parse (.vlist data) =
        (ptuple ps opts).parse (.vlist (data.take ps.length))) := by
  refine ⟨?_, ?_, ?_, ?_⟩
  · intro ps opts data h
    simp only [ptuple, if_pos h]
  · intro ps opts data e h ht
    simp only [ptuple, if_neg h, ht]
  · intro ps opts data parsed h ht
    simp only [ptuple, if_neg h, ht]
    split <;> rename_i hlt <;> simp [hlt]
  · intro ps opts data h
    have harr : ¬ (data.length + opts.length < ps.length) := by omega
    have harr2 : ¬ ((data.take ps.length).length + opts.length < ps.length) := by
      simp [List.length_take]
      omega
    have ht : typed (ps.map (·.parse)) data = typed (ps.map (·.parse)) (data.take ps.length) := by
      rw [typed_take]
      simp [List.length_map]
    simp only [ptuple, if_neg harr, if_neg harr2, ht]

/-- Witness for C4 (amended): codecs `[osu_int, osu_int]` with default
`[vint 7]` on the single token `"3"`: arity holds (1 + 1 ≥ 2), element
decode succeeds, and the missing trailing position is filled with the
right-aligned default, yielding `[3, 7]`. -/
theorem c4_ptuple_arity_witness :
    (ptuple [osu_int, osu_int] [.vint 7]).parse (.vlist [.vstr ['3']]) =
      .ok (.vlist [.vint 3, .vint 7]) := by
  have h := c4_ptuple_arity.2.2.1 [osu_int, osu_int] [.vint 7] [.vstr ['3']]
    [.vint 3] (by simp) (by with_unfolding_all rfl)
  simpa using h

/-- Claim C5: every slider line that decodes successfully has edgesounds
and edgesets lists of exactly `len(curvepoints)` elements (shorter decoded
lists are right-padded with `0` resp. `(0,0)`, longer ones truncated); a
curve with two points and edgesounds text `"2"` decodes to `[2, 0]`, and
edgesounds text `"2|0|5"` decodes to `[2, 0]`. -/
theorem c5_slider_edge_lengths :
    (∀ st raw sd st2, parse_slider_params st raw = .ok (sd, st2) →
      (resolveEdge st2.o1 sd.edgesounds).length = sd.curvepoints.length ∧
      (resolveEdge st2.o2 sd.edgesets).length = sd.curvepoints.length) ∧
    (parse_slider_params ⟨[], []⟩ ["L|0:0|1:1".data, "1".data, "5".data, "2".data] =
      .ok (⟨['L'], [(0, 0), (1, 1)], 1, 5, .vals [2, 0], .shared, default_hitsample⟩,
        ⟨[], [(0, 0), (0, 0)]⟩)) ∧
    (parse_slider_params ⟨[], []⟩ ["L|0:0|1:1".data, "1".data, "5".data, "2|0|5".data] =
      .ok (⟨['L'], [(0, 0), (1, 1)], 1, 5, .vals [2, 0], .shared, default_hitsample⟩,
        ⟨[], [(0, 0), (0, 0)]⟩)) := by
  refine ⟨?_, by with_unfolding_all rfl, by with_unfolding_all rfl⟩
  intro st raw sd st2 h
  unfold parse_slider_params at h
  split at h
  · rename_i ct cpsv slides lenv esv esetsv smp heq
    split at h
    · rename_i cps es0 esets0 len h1 h2 h3 h4
      rw [Except.ok.injEq] at h
      obtain ⟨h5, h6⟩ := Prod.ext_iff.mp h
      subst h5
      subst h6
      constructor
      · by_cases hc : raw.length < 4 <;>
          simp [hc, resolveEdge, fillexact_length]
      · by_cases hc : raw.length < 5 <;>
          simp [hc, resolveEdge, fillexact_length]
    · exact absurd h (by simp)
  · exact absurd h (by simp)

/-- Witness for C5: the first conjunct applied to the concrete
four-token slider parameters above. -/
theorem c5_slider_edge_lengths_witness :
    (resolveEdge (⟨[], [(0, 0), (0, 0)]⟩ : DefState).o1
        (SliderData.mk ['L'] [(0, 0), (1, 1)] 1 5 (.vals [2, 0]) .shared default_hitsample).edgesounds).length =
      (SliderData.mk ['L'] [(0, 0), (1, 1)] 1 5 (.vals [2, 0]) .shared default_hitsample).curvepoints.length :=
  (c5_slider_edge_lengths.1 ⟨[], []⟩ ["L|0:0|1:1".data, "1".data, "5".data, "2".data]
    ⟨['L'], [(0, 0), (1, 1)], 1, 5, .vals [2, 0], .shared, default_hitsample⟩
    ⟨[], [(0, 0), (0, 0)]⟩ (by with_unfolding_all rfl)).1

/-- Claim C6: slider edge-data failure handling is asymmetric: each
edgesounds element is decoded with `ptry(osu_int, 0)`, which never raises
and substitutes 0 on failure, while an edgesets pair with fewer than two
colon components raises, a failing decode of either of the first two
components raises, and components beyond the second are ignored. -/
theorem c6_edge_failure_asymmetry :
    (∀ v : Val, ∃ w, (ptry osu_int (.vint 0)).parse v = .ok w) ∧
    (∀ v : Val, parse_int v = .error () → (ptry osu_int (.vint 0)).parse v = .ok (.vint 0)) ∧
    (∀ s : Str, (pysplit ':' s).length < 2 →
      (ptuple_split ':' [osu_int, osu_int]).parse (.vstr s) = .error ()) ∧
    (∀ s c1 c2 rest, pysplit ':' s = c1 :: c2 :: rest →
      (ptuple_split ':' [osu_int, osu_int]).parse (.vstr s) =
        (match parse_int (.vstr c1), parse_int (.vstr c2) with
         | .ok a, .ok b => .ok (.vlist [a, b])
         | _, _ => .error ())) := by
  refine ⟨?_, ?_, ?_, ?_⟩
  · intro v
    unfold ptry
    cases h : osu_int.parse v with
    | ok w => exact ⟨w, by simp [h]⟩
    | error e => exact ⟨.vint 0, by simp [h]⟩
  · intro v h
    have : osu_int.parse v = .error () := h
    simp [ptry, this]
  · intro s hlen
    simp only [ptuple_split, pcompose2, psplit]
    have harity : (((pysplit ':' s).map Val.vstr).length +
        ([] : List Val).length < [osu_int, osu_int].length) := by
      simp [List.length_map]
      omega
    simp only [ptuple, if_pos harity]
  · intro s c1 c2 rest hsplit
    simp only [ptuple_split, pcompose2, psplit, hsplit]
    have harity : ¬ ((Val.vstr c1 :: Val.vstr c2 :: rest.map Val.vstr).length +
        ([] : List Val).length < [osu_int, osu_int].length) := by
      simp
    simp only [List.map_cons, List.map_nil, ptuple, if_neg harity, typed_two]
    cases h1 : parse_int (.vstr c1) with
    | error e1 =>
      cases e1
      have ho1 : osu_int.parse (Val.vstr c1) = .error () := h1
      simp [ho1, h1]
    | ok a =>
      have ho1 : osu_int.parse (Val.vstr c1) = .ok a := h1
      cases h2 : parse_int (.vstr c2) with
      | error e2 =>
        cases e2
        have ho2 : osu_int.parse (Val.vstr c2) = .error () := h2
        simp [ho1, ho2, h1, h2]
      | ok b =>
        have ho2 : osu_int.parse (Val.vstr c2) = .ok b := h2
        simp [ho1, ho2, h1, h2]

/-- Witness for C6: `ptry` on the unparsable token `"x"` yields 0;
the pair codec on `"1:x"` and on `"1"` raises; on `"1:2:9"` the third
component is ignored. -/
theorem c6_edge_failure_asymmetry_witness :
    (ptry osu_int (.vint 0)).parse (.vstr ['x']) = .ok (.vint 0) ∧
    (ptuple_split ':' [osu_int, osu_int]).parse (.vstr ['1']) = .error () ∧
    (ptuple_split ':' [osu_int, osu_int]).parse (.vstr "1:x".data) = .error () ∧
    (ptuple_split ':' [osu_int, osu_int]).parse (.vstr "1:2:9".data) =
      .ok (.vlist [.vint 1, .vint 2]) := by
  refine ⟨c6_edge_failure_asymmetry.2.1 (.vstr ['x']) (by with_unfolding_all rfl), ?_, ?_, ?_⟩
  · exact c6_edge_failure_asymmetry.2.2.1 ['1'] (by simp [pysplit])
  · rw [c6_edge_failure_asymmetry.2.2.2 "1:x".data ['1'] ['x'] [] (by with_unfolding_all rfl)]
    with_unfolding_all rfl
  · rw [c6_edge_failure_asymmetry.2.2.2 "1:2:9".data ['1'] ['2'] [['9']] (by with_unfolding_all rfl)]
    with_unfolding_all rfl

/-- Claim C7 counterexample: the filename token `"a` (one leading quote,
no trailing quote) has no surrounding quote pair, so the claim says it is
returned unchanged; the code's `strip('"')` removes the lone leading quote
and decodes the filename as `a`. -/
theorem c7_counterexample :
    parse_event_line "0,0,\"a,0,0".data =
      .ok (.EventBackground "0".data 0 "a".data 0 0) ∧
    stripOneLayerSpec "\"a".data = "\"a".data ∧
    "a".data ≠ "\"a".data :=
  ⟨by with_unfolding_all rfl, by decide, by decide⟩

/-- Claim C7 (amended): filename decoding removes ALL leading and ALL
trailing double-quote characters of the token (each side independently,
so unbalanced or stacked quotes are also removed) and preserves every
other character, including interior and exterior whitespace, exactly; a
token with no leading and no trailing quote is returned unchanged.  The
claim's two concrete examples hold as stated. -/
theorem c7_event_filename_quotes :
    (∀ s, osu_quoted_str.parse (.vstr s) = .ok (.vstr (pystripQuotes s))) ∧
    (∀ s : Str, s.head? ≠ some '"' → s.getLast? ≠ some '"' → pystripQuotes s = s) ∧
    (parse_event_line "0,0,\"  12.jpg  \",0,0".data =
      .ok (.EventBackground "0".data 0 "  12.jpg  ".data 0 0)) ∧
    (parse_event_line "0,0,  12.jpg  ,0,0".data =
      .ok (.EventBackground "0".data 0 "  12.jpg  ".data 0 0)) := by
  refine ⟨fun s => rfl, ?_, by with_unfolding_all rfl, by with_unfolding_all rfl⟩
  intro s h1 h2
  apply stripWhile_eq_self
  · intro c hc
    cases hd : s.head? with
    | none => simp [hd] at hc
    | some c' =>
      rw [hd] at hc
      cases hc
      simp only [decide_eq_false_iff_not]
      intro hcq
      exact h1 (hcq ▸ hd)
  · intro c hc
    cases hd : s.getLast? with
    | none => simp [hd] at hc
    | some c' =>
      rw [hd] at hc
      cases hc
      simp only [decide_eq_false_iff_not]
      intro hcq
      exact h2 (hcq ▸ hd)

/-- Witness for C7 (amended): the unquoted token `ab` is unchanged. -/
theorem c7_event_filename_quotes_witness :
    pystripQuotes "ab".data = "ab".data :=
  c7_event_filename_quotes.2.1 "ab".data (by decide) (by decide)

theorem construct_tp_some_length {args : List Val} {tp : TimingPoint}
    (h : construct_tp args = some tp) : 4 ≤ args.length ∧ args.length ≤ 8 := by
  unfold construct_tp at h
  split at h <;> simp_all

/-- Claim C3 (amended): a TimingPoints line with fewer than 4 comma tokens
raises provided every present token decodes (the arity failure happens in
`construct_tp`, outside the `try`); if any present token fails its scalar
decode the record is silently dropped regardless of token count; a line
with exactly 4 valid tokens succeeds with defaults `sampleindex=0,
volume=100, uninherited=true, effects=0`; tokens beyond the eighth never
influence the result. -/
theorem c3_timingpoint_arity :
    (∀ line args, (pysplit ',' line).length < 4 →
      typed TIMINGPOINT_PARSE_TYPE ((pysplit ',' line).map Val.vstr) = .ok args →
      parse_timingpoint line = .error ()) ∧
    (∀ line e, typed TIMINGPOINT_PARSE_TYPE ((pysplit ',' line).map Val.vstr) = .error e →
      parse_timingpoint line = .ok none) ∧
    (parse_timingpoint "0,300,4,1".data =
      .ok (some ⟨0, 300, 4, 1, 0, 100, true, 0⟩)) ∧
    (∀ line, typed TIMINGPOINT_PARSE_TYPE ((pysplit ',' line).map Val.vstr) =
      typed TIMINGPOINT_PARSE_TYPE (((pysplit ',' line).map Val.vstr).take 8)) := by
  refine ⟨?_, ?_, by with_unfolding_all rfl, ?_⟩
  · intro line args hlen ht
    have hargs : args.length =
        min TIMINGPOINT_PARSE_TYPE.length ((pysplit ',' line).map Val.vstr).length :=
      typed_ok_length ht
    have hargs4 : args.length < 4 := by
      simp only [List.length_map] at hargs
      have h8 : TIMINGPOINT_PARSE_TYPE.length = 8 := rfl
      omega
    cases hc : construct_tp args with
    | none => simp only [parse_timingpoint, ht, hc]
    | some tp =>
      have := construct_tp_some_length hc
      omega
  · intro line e ht
    simp only [parse_timingpoint, ht]
  · intro line
    have h := typed_take TIMINGPOINT_PARSE_TYPE ((pysplit ',' line).map .vstr)
    simpa using h

/-- Witness for C3 (amended): the 3-valid-token line `0,300,4` raises,
while the invalid 4-token line `a,s,d,f` is dropped. -/
theorem c3_timingpoint_arity_witness :
    parse_timingpoint "0,300,4".data = .error () ∧
    parse_timingpoint "a,s,d,f".data = .ok none :=
  ⟨c3_timingpoint_arity.1 "0,300,4".data [.vint 0, .vfloat 300, .vint 4]
      (by decide) (by with_unfolding_all rfl),
   c3_timingpoint_arity.2.1 "a,s,d,f".data () (by with_unfolding_all rfl)⟩

/-- Claim C3 counterexample: the single-token line `kjkjkjkjkjkjk` has
fewer than 4 comma tokens, yet parsing does not raise — the failing scalar
decode is caught inside the `try` and the record is silently dropped, so
"fewer than 4 tokens raises" is false as stated. -/
theorem c3_counterexample :
    parse_timingpoint "kjkjkjkjkjkjk".data = .ok none ∧
    (pysplit ',' "kjkjkjkjkjkjk".data).length < 4 :=
  ⟨by with_unfolding_all rfl, by decide⟩

theorem dictSet_lookup (d : List (Str × Val)) (k : Str) (v : Val) :
    (dictSet d k v).lookup k = some v := by
  induction d with
  | nil => simp [dictSet, List.lookup]
  | cons p t ih =>
    obtain ⟨pk, pv⟩ := p
    by_cases hp : pk = k
    · have hany : ((pk, pv) :: t).any (fun q => q.1 == k) = true := by
        simp [List.any_cons, hp]
      have hpk : ((pk, pv).1 == k) = true := by simp [hp]
      simp only [dictSet, hany, if_true, List.map_cons, hpk, List.lookup, beq_self_eq_true]
    · have hp' : ((pk, pv).1 == k) = false := by simp [hp]
      have hp'' : (k == pk) = false := by
        simp only [beq_eq_false_iff_ne, ne_eq]
        exact fun hc => hp hc.symm
      by_cases hat : t.any (fun q => q.1 == k) = true
      · have hany : ((pk, pv) :: t).any (fun q => q.1 == k) = true := by
          simp [List.any_cons, hat]
        have hmap : List.map (fun q => if q.1 == k then (k, v) else q) t = dictSet t k v := by
          simp only [dictSet, hat, if_true]
        simp only [dictSet, hany, if_true, List.map_cons, hp', if_false, List.lookup, hp'']
        rw [hmap]
        exact ih
      · have hatf : t.any (fun q => q.1 == k) = false := (Bool.not_eq_true _) ▸ hat
        have hany : ((pk, pv) :: t).any (fun q => q.1 == k) = false := by
          simp only [List.any_cons, hp', hatf, Bool.or_self]
        simp only [dictSet, hany, Bool.false_eq_true, if_false, List.cons_append, List.lookup,
          hp'']
        have happ : t ++ [(k, v)] = dictSet t k v := by
          simp only [dictSet, hatf, Bool.false_eq_true, if_false]
        rw [happ]
        exact ih

theorem dictSet_keys (d : List (Str × Val)) (k : Str) (v : Val) :
    (dictSet d k v).map Prod.fst =
      if d.any (fun p => p.1 == k) then d.map Prod.fst else d.map Prod.fst ++ [k] := by
  by_cases h : d.any (fun p => p.1 == k) = true
  · simp only [dictSet, h, if_pos, List.map_map]
    refine List.map_congr_left ?_
    intro p _
    by_cases hp : p.1 = k
    · simp [Function.comp, hp]
    · simp [Function.comp, hp]
  · simp [dictSet, h]

/-- Claim C8: when a metadata key occurs on several lines the last
occurrence's value wins while the first occurrence's position fixes the
entry's slot (`dictSet` overwrites in place or appends), and
re-serializing emits one `key:value` line per entry in stored order:
`A:1`/`A:2` decode to a single entry `A ↦ "2"`, and overwriting the 2nd of
3 keys preserves the original key order on write. -/
theorem c8_metadata_duplicate_keys :
    (∀ d k v, (dictSet d k v).lookup k = some v) ∧
    (∀ d k v, (dictSet d k v).map Prod.fst =
      if d.any (fun p => p.1 == k) then d.map Prod.fst else d.map Prod.fst ++ [k]) ∧
    (parse_metadata_section "Metadata".data ["A:1".data, "A:2".data] =
      .ok [("A".data, .vstr "2".data)]) ∧
    ((parse_metadata_section "Metadata".data
        ["A:1".data, "B:2".data, "C:3".data, "B:9".data]) >>=
      (write_metadata_section "Metadata".data) =
      .ok ["A:1".data, "B:9".data, "C:3".data]) :=
  ⟨dictSet_lookup, dictSet_keys, by with_unfolding_all rfl, by with_unfolding_all rfl⟩

theorem roundHalfEven_nearest (q : ℚ) :
    |q - (roundHalfEven q : ℚ)| ≤ 1 / 2 ∧
    (∀ z : ℤ, |q - (roundHalfEven q : ℚ)| ≤ |q - (z : ℚ)|) ∧
    (|q - (roundHalfEven q : ℚ)| = 1 / 2 → Even (roundHalfEven q)) := by
  have hf1 : ((⌊q⌋ : ℤ) : ℚ) ≤ q := Int.floor_le q
  have hf2 : q < (⌊q⌋ : ℚ) + 1 := Int.lt_floor_add_one q
  have key : ∀ z : ℤ, z ≤ ⌊q⌋ → (z : ℚ) ≤ (⌊q⌋ : ℚ) := fun z hz => by exact_mod_cast hz
  have key2 : ∀ z : ℤ, ⌊q⌋ < z → ((⌊q⌋ : ℚ) + 1 ≤ (z : ℚ)) := fun z hz => by
    have : (⌊q⌋ : ℤ) + 1 ≤ z := hz
    exact_mod_cast this
  unfold roundHalfEven
  split_ifs with h1 h2 h3
  · refine ⟨?_, ?_, ?_⟩
    · rw [abs_of_nonneg (by linarith)]
      linarith
    · intro z
      rw [abs_of_nonneg (by linarith)]
      by_cases hz : z ≤ ⌊q⌋
      · have := key z hz
        rw [abs_of_nonneg (by linarith)]
        linarith
      · have := key2 z (by omega)
        rw [abs_of_nonpos (by linarith)]
        linarith
    · intro habs
      rw [abs_of_nonneg (by linarith)] at habs
      exact absurd habs (by linarith)
  · refine ⟨?_, ?_, ?_⟩
    · rw [abs_of_nonpos (by push_cast; linarith)]
      push_cast
      linarith
    · intro z
      rw [abs_of_nonpos (by push_cast; linarith)]
      by_cases hz : z ≤ ⌊q⌋
      · have := key z hz
        rw [abs_of_nonneg (by linarith)]
        push_cast
        linarith
      · have := key2 z (by omega)
        rw [abs_of_nonpos (by linarith)]
        push_cast
        linarith
    · intro habs
      rw [abs_of_nonpos (by push_cast; linarith)] at habs
      push_cast at habs
      exact absurd habs (by intro hc; linarith)
  · have heq : q - (⌊q⌋ : ℚ) = 1 / 2 := by linarith
    refine ⟨?_, ?_, fun _ => h3⟩
    · rw [abs_of_nonneg (by linarith)]
      linarith
    · intro z
      rw [abs_of_nonneg (by linarith)]
      by_cases hz : z ≤ ⌊q⌋
      · have := key z hz
        rw [abs_of_nonneg (by linarith)]
        linarith
      · have := key2 z (by omega)
        rw [abs_of_nonpos (by linarith)]
        linarith
  · have heq : q - (⌊q⌋ : ℚ) = 1 / 2 := by linarith
    refine ⟨?_, ?_, fun _ => Int.even_add_one.mpr h3⟩
    · rw [abs_of_nonpos (by push_cast; linarith)]
      push_cast
      linarith
    · intro z
      rw [abs_of_nonpos (by push_cast; linarith)]
      by_cases hz : z ≤ ⌊q⌋
      · have := key z hz
        rw [abs_of_nonneg (by linarith)]
        push_cast
        linarith
      · have := key2 z (by omega)
        rw [abs_of_nonpos (by linarith)]
        push_cast
        linarith

/-- Claim C9: the built-in integer codec decodes any float-acceptable text
to the nearest integer of its value with ties to even
(`int(round(float(x)))`), so every integer-typed field silently accepts
decimal text: `"6.7"` decodes to 7 in a timing point's time field and in a
hit-object header field. -/
theorem c9_parse_int_rounds :
    (∀ s q, pyFloat s = some q → parse_int (.vstr s) = .ok (.vint (roundHalfEven q))) ∧
    (∀ q : ℚ, |q - (roundHalfEven q : ℚ)| ≤ 1 / 2 ∧
      (∀ z : ℤ, |q - (roundHalfEven q : ℚ)| ≤ |q - (z : ℚ)|) ∧
      (|q - (roundHalfEven q : ℚ)| = 1 / 2 → Even (roundHalfEven q))) ∧
    osu_int.parse = parse_int ∧
    (parse_int (.vstr "6.7".data) = .ok (.vint 7)) ∧
    (parse_timingpoint "6.7,100,4,1".data = .ok (some ⟨7, 100, 4, 1, 0, 100, true, 0⟩)) ∧
    (parse_hitobject ⟨[], []⟩ "6.7,0,0,1,0".data =
      .ok (.HitCircle 7 0 0 1 0 default_hitsample, ⟨[], []⟩)) := by
  refine ⟨?_, roundHalfEven_nearest, rfl, by with_unfolding_all rfl,
    by with_unfolding_all rfl, by with_unfolding_all rfl⟩
  intro s q h
  simp only [parse_int, h]

/-- Witness for C9: the first conjunct applied at `"6.7"`, whose exact
float value is 67/10 and whose half-even rounding is 7. -/
theorem c9_parse_int_rounds_witness :
    parse_int (.vstr "6.7".data) = .ok (.vint (roundHalfEven (67 / 10))) :=
  c9_parse_int_rounds.1 "6.7".data (67 / 10) (by with_unfolding_all rfl)

/-- Claim C10: `Parser.write` always emits the fixed line
`osu file format v14` as the first output line, independently of the
`header` attribute, while `Parser.parse` stores the stripped first input
line on the `header` attribute. -/
theorem c10_header_line :
    (∀ osu ls, Parser_write osu = .ok ls → ls.head? = some ("osu file format v14".data)) ∧
    (∀ h1 h2 secs, Parser_write ⟨h1, secs⟩ = Parser_write ⟨h2, secs⟩) ∧
    (∀ l rest osu2, Parser_parse (l :: rest) = .ok osu2 → osu2.header = pystrip l) := by
  refine ⟨?_, fun h1 h2 secs => rfl, ?_⟩
  · intro osu ls h
    unfold Parser_write at h
    cases hm : osu.sections.mapM
        (fun p => (write_section p.1 p.2).map (fun ls => [] :: ('[' :: p.1 ++ [']']) :: ls)) with
    | error e => rw [hm] at h; cases h
    | ok body =>
      rw [hm] at h
      cases h
      rfl
  · intro l rest osu2 h
    simp only [Parser_parse] at h
    cases hm : (splitSections (rest.map pystrip)).foldlM Parser_parse_step
        ([], (⟨[], []⟩ : DefState)) with
    | error e => rw [hm] at h; cases h
    | ok r =>
      rw [hm] at h
      cases r with
      | mk secs stFin =>
        cases h
        rfl

/-- Witness for C10: a one-section file written from two different header
attributes gives identical output starting with the fixed format line, and
parsing stores the stripped header. -/
theorem c10_header_line_witness :
    (["osu file format v14".data] : List Str).head? = some ("osu file format v14".data) ∧
    Parser_write ⟨"a".data, []⟩ = Parser_write ⟨"b".data, []⟩ ∧
    (OsuFile.mk (pystrip " x ".data) []).header = pystrip " x ".data :=
  ⟨c10_header_line.1 ⟨"a".data, []⟩ ["osu file format v14".data] (by with_unfolding_all rfl),
   c10_header_line.2.1 "a".data "b".data [],
   c10_header_line.2.2 " x ".data [] ⟨pystrip " x ".data, []⟩ (by with_unfolding_all rfl)⟩

/-- Claim C1 (code-bug evidence): the hit-object section violates the
round-trip fixpoint `parse(write(parse(lines))) == parse(lines)`.  The two
slider lines omit their edge lists, so both records alias the codec's
shared mutable default lists; `fillexact` then truncates those lists to
the second slider's single curve point, retroactively shrinking the first
record's edge lists, while re-parsing the written output yields properly
sized lists.  With the edge data written explicitly the very same sliders
do round-trip. -/
theorem c1_roundtrip_bug :
    roundtrip_hitobjects ["0,0,0,2,0,L|0:0|1:1,1".data, "0,0,0,2,0,L|0:0,1".data] =
      some false ∧
    roundtrip_hitobjects ["0,0,0,2,0,L|0:0|1:1,1,0.0,0|0,0:0|0:0,0:0:0:0:".data,
      "0,0,0,2,0,L|0:0,1,0.0,0,0:0,0:0:0:0:".data] = some true :=
  ⟨by with_unfolding_all rfl, by with_unfolding_all rfl⟩

end Osufile
